import Mathlib

/-!
Verification of `serve-local.py`, a static file server for the built
`dist` directory that adds permissive CORS headers to every response.

The script is embedded as a trace-producing interpreter: the external
conditions the script observes (whether `dist` exists, whether the TCP
bind succeeds, whether a KeyboardInterrupt is delivered and when) are
collected in an `Env`, and `main` returns the ordered list of observable
events (directory changes, the existence check, prints, the bind
attempt, entry into the serve loop) together with how the process ends.
-/

namespace ServeLocal

/-- A filesystem path, as its list of components. -/
abbrev Path := List String

def pathString (p : Path) : String := String.intercalate "/" p

/-- `PORT = 8000` from the script's configuration block. -/
def PORT : Nat := 8000

/-- `HOST = "localhost"` from the script's configuration block. -/
def HOST : String := "localhost"

/-- Exceptions that can terminate the process when nothing catches them. -/
inductive Exc where
  | oserror
  | keyboardInterrupt
deriving DecidableEq, Repr

/-- Observable events of one run of the script, in program order. -/
inductive Ev where
  | chdir (dir : Path)
  | checkDist (found : Bool)
  | print (msg : String)
  | bind (host : String) (port : Nat)
  | serveLoop
deriving DecidableEq, Repr

/-- How the process ends (or that it is still in the serve loop). -/
inductive PResult where
  | exited (code : Nat)
  | unhandled (exc : Exc)
  | running
deriving DecidableEq, Repr

/-- External conditions of one run: where the script file lives, whether
`dist` exists next to it, whether the TCP bind succeeds, and whether a
KeyboardInterrupt arrives before `serve_forever` is entered or inside it. -/
structure Env where
  scriptDir : Path
  distExists : Bool
  bindOk : Bool
  interruptBeforeServe : Bool
  serveInterrupted : Bool
deriving DecidableEq, Repr

def errMsg1 : String := "❌ Error: 'dist' directory not found!"

def errMsg2 : String := "Please run 'npm run build' first to create the production build."

def stopMsg : String := "\n🛑 Server stopped"

def dashes : String := String.mk (List.replicate 50 '-')

/-- The five status lines printed after the server is constructed
(lines 42-46 of the script); the second one interpolates `os.getcwd()`. -/
def startupPrints (cwd : Path) : List Ev :=
  [Ev.print ("🚀 Serving Daydream app at http://" ++ HOST ++ ":" ++ toString PORT),
   Ev.print ("📁 Serving from: " ++ pathString cwd),
   Ev.print "🎬 This avoids CORS issues with Livepeer TV player",
   Ev.print "⚠️  Press Ctrl+C to stop the server",
   Ev.print dashes]

/-- `main()` of `serve-local.py`, line by line:
`os.chdir(project_dir)`; the `dist` existence check with the two error
prints and `sys.exit(1)`; `os.chdir(project_dir / "dist")`; the
`TCPServer` construction (the bind attempt, whose `OSError` nothing
catches); the status prints; then `serve_forever` inside a `try` whose
only handler is `except KeyboardInterrupt`, which prints and exits 0. -/
def main (env : Env) : List Ev × PResult :=
  let project_dir := env.scriptDir
  let tr0 := [Ev.chdir project_dir, Ev.checkDist env.distExists]
  if env.distExists = false then
    (tr0 ++ [Ev.print errMsg1, Ev.print errMsg2], PResult.exited 1)
  else
    let tr1 := tr0 ++ [Ev.chdir (project_dir ++ ["dist"]), Ev.bind HOST PORT]
    if env.bindOk = false then
      (tr1, PResult.unhandled Exc.oserror)
    else
      let tr2 := tr1 ++ startupPrints (project_dir ++ ["dist"])
      if env.interruptBeforeServe = true then
        (tr2, PResult.unhandled Exc.keyboardInterrupt)
      else
        let tr3 := tr2 ++ [Ev.serveLoop]
        if env.serveInterrupted = true then
          (tr3 ++ [Ev.print stopMsg], PResult.exited 0)
        else
          (tr3, PResult.running)

/-- The three header lines `CORSHTTPRequestHandler.end_headers` sends
before delegating to the base class (lines 35-37 of the script). -/
def corsHeaders : List (String × String) :=
  [("Access-Control-Allow-Origin", "*"),
   ("Access-Control-Allow-Methods", "GET, POST, OPTIONS"),
   ("Access-Control-Allow-Headers", "Content-Type, Authorization")]

/-- `super().end_headers()` of `SimpleHTTPRequestHandler`: it finalizes
whatever headers have been buffered, adding none of its own. -/
def baseEndHeaders (buffered : List (String × String)) : List (String × String) :=
  buffered

/-- `CORSHTTPRequestHandler.end_headers`: sends the three CORS headers,
then calls the base finalization on the enlarged buffer. The buffer at
the call site holds whatever headers the base handler emitted for the
request, so it is left arbitrary. -/
def end_headers (buffered : List (String × String)) : List (String × String) :=
  baseEndHeaders (buffered ++ corsHeaders)

/-- Whether an event is the `dist` existence check. -/
def isCheckEv : Ev → Bool
  | Ev.checkDist _ => true
  | _ => false

/-- Whether an event is a working-directory change. -/
def isChdirEv : Ev → Bool
  | Ev.chdir _ => true
  | _ => false

/-- The reading of claim C5's ordering clause: the first existence check
in the trace occurs strictly before the first directory change (and a
check occurs at all whenever a directory change does). -/
def checkPrecedesAllChdirs (tr : List Ev) : Bool :=
  match tr.findIdx? isCheckEv, tr.findIdx? isChdirEv with
  | some i, some j => decide (i < j)
  | some _, none => true
  | none, none => true
  | none, some _ => false

/-- C1: every response the server produces, whatever the base handler
buffered for the request's path, method and status, carries exactly the
three CORS headers with their literal values, appended to the buffer
before the base handler's finalization step runs. -/
theorem c1_cors_headers_on_every_response (buffered : List (String × String)) :
    end_headers buffered = baseEndHeaders (buffered ++ corsHeaders) ∧
    end_headers buffered = buffered ++ corsHeaders ∧
    ("Access-Control-Allow-Origin", "*") ∈ end_headers buffered ∧
    ("Access-Control-Allow-Methods", "GET, POST, OPTIONS") ∈ end_headers buffered ∧
    ("Access-Control-Allow-Headers", "Content-Type, Authorization") ∈ end_headers buffered := by
  refine ⟨rfl, rfl, ?_, ?_, ?_⟩ <;> simp [end_headers, baseEndHeaders, corsHeaders]

/-- C2: when `dist` is missing, the run prints the two actionable error
lines, ends with exit status 1, and its trace holds no bind attempt. -/
theorem c2_missing_dist_exits_1_no_bind (env : Env) (h : env.distExists = false) :
    (main env).2 = PResult.exited 1 ∧
    Ev.print errMsg1 ∈ (main env).1 ∧
    Ev.print errMsg2 ∈ (main env).1 ∧
    ∀ host port, Ev.bind host port ∉ (main env).1 := by
  obtain ⟨d, de, bo, ibs, si⟩ := env
  simp only at h
  subst h
  refine ⟨rfl, ?_, ?_, ?_⟩ <;> simp [main]

theorem c2_witness :
    (Env.mk ["repo"] false true false false).distExists = false ∧
    ((main (Env.mk ["repo"] false true false false)).2 = PResult.exited 1 ∧
     Ev.print errMsg1 ∈ (main (Env.mk ["repo"] false true false false)).1 ∧
     Ev.print errMsg2 ∈ (main (Env.mk ["repo"] false true false false)).1 ∧
     ∀ host port, Ev.bind host port ∉ (main (Env.mk ["repo"] false true false false)).1) :=
  ⟨rfl, c2_missing_dist_exits_1_no_bind (Env.mk ["repo"] false true false false) rfl⟩

/-- C9: on the fatal missing-`dist` path the working directory has already
been changed to the script's directory before the existence check runs:
the trace is exactly the chdir, then the failed check, then the two error
prints, and the run still ends with exit status 1. -/
theorem c9_chdir_precedes_failed_check (env : Env) (h : env.distExists = false) :
    (main env).1 = [Ev.chdir env.scriptDir, Ev.checkDist false,
                    Ev.print errMsg1, Ev.print errMsg2] ∧
    (main env).2 = PResult.exited 1 := by
  obtain ⟨d, de, bo, ibs, si⟩ := env
  simp only at h
  subst h
  exact ⟨rfl, rfl⟩

theorem c9_witness :
    (Env.mk ["repo"] false false false false).distExists = false ∧
    ((main (Env.mk ["repo"] false false false false)).1 =
      [Ev.chdir ["repo"], Ev.checkDist false, Ev.print errMsg1, Ev.print errMsg2] ∧
     (main (Env.mk ["repo"] false false false false)).2 = PResult.exited 1) :=
  ⟨rfl, c9_chdir_precedes_failed_check (Env.mk ["repo"] false false false false) rfl⟩

/-- C3: a KeyboardInterrupt raised inside the serve loop is caught, the
shutdown line is printed, and the run ends with exit status 0. -/
theorem c3_interrupt_in_serve_exits_0 (env : Env) (h1 : env.distExists = true)
    (h2 : env.bindOk = true) (h3 : env.interruptBeforeServe = false)
    (h4 : env.serveInterrupted = true) :
    (main env).2 = PResult.exited 0 ∧
    Ev.print stopMsg ∈ (main env).1 := by
  obtain ⟨d, de, bo, ibs, si⟩ := env
  simp only at h1 h2 h3 h4
  subst h1; subst h2; subst h3; subst h4
  refine ⟨rfl, ?_⟩
  simp [main, startupPrints]

theorem c3_witness :
    ((Env.mk ["app"] true true false true).distExists = true ∧
     (Env.mk ["app"] true true false true).bindOk = true ∧
     (Env.mk ["app"] true true false true).interruptBeforeServe = false ∧
     (Env.mk ["app"] true true false true).serveInterrupted = true) ∧
    ((main (Env.mk ["app"] true true false true)).2 = PResult.exited 0 ∧
     Ev.print stopMsg ∈ (main (Env.mk ["app"] true true false true)).1) :=
  ⟨⟨rfl, rfl, rfl, rfl⟩,
   c3_interrupt_in_serve_exits_0 (Env.mk ["app"] true true false true) rfl rfl rfl rfl⟩

/-- C4: behavior is fixed by in-source configuration: the host constant is
"localhost", the port constant is 8000, and whenever `dist` exists the run
changes into `dist` resolved against the script's own directory and then
attempts the one bind, to exactly that host and port. -/
theorem c4_fixed_configuration (env : Env) (h : env.distExists = true) :
    HOST = "localhost" ∧ PORT = 8000 ∧
    ∃ rest, (main env).1 =
      Ev.chdir env.scriptDir :: Ev.checkDist true ::
      Ev.chdir (env.scriptDir ++ ["dist"]) :: Ev.bind "localhost" 8000 :: rest := by
  obtain ⟨d, de, bo, ibs, si⟩ := env
  simp only at h
  subst h
  refine ⟨rfl, rfl, ?_⟩
  cases bo <;> cases ibs <;> cases si <;> exact ⟨_, rfl⟩

theorem c4_witness :
    (Env.mk ["app"] true true false false).distExists = true ∧
    (HOST = "localhost" ∧ PORT = 8000 ∧
     ∃ rest, (main (Env.mk ["app"] true true false false)).1 =
       Ev.chdir ["app"] :: Ev.checkDist true ::
       Ev.chdir (["app"] ++ ["dist"]) :: Ev.bind "localhost" 8000 :: rest) :=
  ⟨rfl, c4_fixed_configuration (Env.mk ["app"] true true false false) rfl⟩

/-- C5 as stated is false: in a run where `dist` exists, the first
working-directory change (to the script's directory, line 20) occurs
strictly before the existence check (line 23), so the precondition check
does not happen before every directory change. -/
theorem c5_counterexample :
    (Env.mk ["app"] true true false false).distExists = true ∧
    checkPrecedesAllChdirs (main (Env.mk ["app"] true true false false)).1 = false := by
  exact ⟨rfl, rfl⟩

/-- C5 amended: after the initial change to the script's own directory,
the startup order is: precondition check, then the change into `dist`,
then the bind attempt, and (when the bind succeeds and no interrupt
arrives before it) entry into the blocking serve loop. -/
theorem c5_startup_order_amended (env : Env) (h1 : env.distExists = true)
    (h2 : env.bindOk = true) (h3 : env.interruptBeforeServe = false) :
    ∃ rest, (main env).1 =
      Ev.chdir env.scriptDir :: Ev.checkDist true ::
      Ev.chdir (env.scriptDir ++ ["dist"]) :: Ev.bind HOST PORT :: rest ∧
      Ev.serveLoop ∈ rest := by
  obtain ⟨d, de, bo, ibs, si⟩ := env
  simp only at h1 h2 h3
  subst h1; subst h2; subst h3
  cases si <;> exact ⟨_, rfl, by simp [startupPrints]⟩

theorem c5_amended_witness :
    ((Env.mk ["app"] true true false false).distExists = true ∧
     (Env.mk ["app"] true true false false).bindOk = true ∧
     (Env.mk ["app"] true true false false).interruptBeforeServe = false) ∧
    (∃ rest, (main (Env.mk ["app"] true true false false)).1 =
      Ev.chdir ["app"] :: Ev.checkDist true ::
      Ev.chdir (["app"] ++ ["dist"]) :: Ev.bind HOST PORT :: rest ∧
      Ev.serveLoop ∈ rest) :=
  ⟨⟨rfl, rfl, rfl⟩,
   c5_startup_order_amended (Env.mk ["app"] true true false false) rfl rfl rfl⟩

/-- C6: when the precondition check succeeds, the working directory is
changed into `dist` (resolved against the script's directory) before the
server's bind, so request resolution happens inside `dist`. -/
theorem c6_chdir_dist_before_bind (env : Env) (h : env.distExists = true) :
    ∃ rest, (main env).1 =
      Ev.chdir env.scriptDir :: Ev.checkDist true ::
      Ev.chdir (env.scriptDir ++ ["dist"]) :: Ev.bind HOST PORT :: rest := by
  obtain ⟨d, de, bo, ibs, si⟩ := env
  simp only at h
  subst h
  cases bo <;> cases ibs <;> cases si <;> exact ⟨_, rfl⟩

theorem c6_witness :
    (Env.mk ["srv"] true true false true).distExists = true ∧
    (∃ rest, (main (Env.mk ["srv"] true true false true)).1 =
      Ev.chdir ["srv"] :: Ev.checkDist true ::
      Ev.chdir (["srv"] ++ ["dist"]) :: Ev.bind HOST PORT :: rest) :=
  ⟨rfl, c6_chdir_dist_before_bind (Env.mk ["srv"] true true false true) rfl⟩

/-- The shutdown line differs from the `Serving from:` status line for
every working directory: their first characters differ. -/
theorem stopMsg_ne_from (s : String) : stopMsg ≠ "📁 Serving from: " ++ s := by
  obtain ⟨l⟩ := s
  intro h
  have h2 : stopMsg.data.head? = ("📁 Serving from: " ++ String.mk l).data.head? := by
    rw [h]
  have h3 : some '\n' = some '📁' := h2
  exact absurd h3 (by decide)

/-- The shutdown line is none of the five startup status lines. -/
theorem stopMsg_not_startup (cwd : Path) : Ev.print stopMsg ∉ startupPrints cwd := by
  intro h
  simp only [startupPrints, List.mem_cons, List.not_mem_nil, or_false,
    Ev.print.injEq] at h
  rcases h with h | h | h | h | h
  · exact absurd h (by decide)
  · exact absurd h (stopMsg_ne_from (pathString cwd))
  · exact absurd h (by decide)
  · exact absurd h (by decide)
  · exact absurd h (by decide)

/-- C7: when the TCP bind fails, the exception is caught nowhere: the run
ends as an unhandled OSError, not through the status-0 shutdown path, and
the shutdown line is never printed. -/
theorem c7_bind_failure_uncaught (env : Env) (h1 : env.distExists = true)
    (h2 : env.bindOk = false) :
    (main env).2 = PResult.unhandled Exc.oserror ∧
    (main env).2 ≠ PResult.exited 0 ∧
    Ev.print stopMsg ∉ (main env).1 := by
  obtain ⟨d, de, bo, ibs, si⟩ := env
  simp only at h1 h2
  subst h1; subst h2
  refine ⟨rfl, by simp [main], ?_⟩
  simp [main]

theorem c7_witness :
    ((Env.mk ["app"] true false false false).distExists = true ∧
     (Env.mk ["app"] true false false false).bindOk = false) ∧
    ((main (Env.mk ["app"] true false false false)).2 = PResult.unhandled Exc.oserror ∧
     (main (Env.mk ["app"] true false false false)).2 ≠ PResult.exited 0 ∧
     Ev.print stopMsg ∉ (main (Env.mk ["app"] true false false false)).1) :=
  ⟨⟨rfl, rfl⟩, c7_bind_failure_uncaught (Env.mk ["app"] true false false false) rfl rfl⟩

/-- C8: once the bind has succeeded, the run terminates only if an
interrupt is delivered; with no interrupt at all the serve loop is still
running (it runs indefinitely). -/
theorem c8_serving_terminates_only_on_interrupt (env : Env)
    (h1 : env.distExists = true) (h2 : env.bindOk = true) :
    ((main env).2 ≠ PResult.running →
      env.interruptBeforeServe = true ∨ env.serveInterrupted = true) ∧
    (env.interruptBeforeServe = false → env.serveInterrupted = false →
      (main env).2 = PResult.running) := by
  obtain ⟨d, de, bo, ibs, si⟩ := env
  simp only at h1 h2
  subst h1; subst h2
  cases ibs <;> cases si <;> simp [main]

theorem c8_witness :
    ((Env.mk ["app"] true true false false).distExists = true ∧
     (Env.mk ["app"] true true false false).bindOk = true) ∧
    (main (Env.mk ["app"] true true false false)).2 = PResult.running :=
  ⟨⟨rfl, rfl⟩,
   (c8_serving_terminates_only_on_interrupt
      (Env.mk ["app"] true true false false) rfl rfl).2 rfl rfl⟩

/-- C10: a KeyboardInterrupt delivered after the check but before
`serve_forever` is entered is caught by nothing: the run ends as an
unhandled KeyboardInterrupt, the serve loop is never entered, the
shutdown line is never printed, and the exit-0 path is not taken. -/
theorem c10_interrupt_before_serve_uncaught (env : Env)
    (h1 : env.distExists = true) (h2 : env.bindOk = true)
    (h3 : env.interruptBeforeServe = true) :
    (main env).2 = PResult.unhandled Exc.keyboardInterrupt ∧
    (main env).2 ≠ PResult.exited 0 ∧
    Ev.print stopMsg ∉ (main env).1 ∧
    Ev.serveLoop ∉ (main env).1 := by
  obtain ⟨d, de, bo, ibs, si⟩ := env
  simp only at h1 h2 h3
  subst h1; subst h2; subst h3
  have htr : (main (Env.mk d true true true si)).1 =
      [Ev.chdir d, Ev.checkDist true, Ev.chdir (d ++ ["dist"]), Ev.bind HOST PORT] ++
        startupPrints (d ++ ["dist"]) := rfl
  refine ⟨rfl, by simp [main], ?_, ?_⟩
  · rw [htr]
    intro h
    rcases List.mem_append.mp h with h | h
    · simp at h
    · exact stopMsg_not_startup (d ++ ["dist"]) h
  · rw [htr]
    intro h
    rcases List.mem_append.mp h with h | h
    · simp at h
    · simp [startupPrints] at h

theorem c10_witness :
    ((Env.mk ["app"] true true true false).distExists = true ∧
     (Env.mk ["app"] true true true false).bindOk = true ∧
     (Env.mk ["app"] true true true false).interruptBeforeServe = true) ∧
    ((main (Env.mk ["app"] true true true false)).2 =
        PResult.unhandled Exc.keyboardInterrupt ∧
     (main (Env.mk ["app"] true true true false)).2 ≠ PResult.exited 0 ∧
     Ev.print stopMsg ∉ (main (Env.mk ["app"] true true true false)).1 ∧
     Ev.serveLoop ∉ (main (Env.mk ["app"] true true true false)).1) :=
  ⟨⟨rfl, rfl, rfl⟩,
   c10_interrupt_before_serve_uncaught (Env.mk ["app"] true true true false) rfl rfl rfl⟩

end ServeLocal
